import Mathlib

/-!
Formal model of the nexus-zero scoring and brief-curation pipeline.

The definitions below are a shallow embedding of the Python sources:
  src/src/scorer/heat_scorer.py      (HeatScorer)
  src/src/scorer/potential_scorer.py (PotentialScorer)
  src/src/scorer/base.py             (BaseScorer.score_content / score_batch)
  src/src/brief/generator.py         (BriefGenerator selection helpers)

Modelling conventions:
  * Timestamps are rationals (seconds since an arbitrary epoch, already
    normalized to UTC); `now` and the start of the current UTC day are
    explicit parameters where the Python code calls `datetime.now` /
    `datetime.utcnow`.
  * Python floats are modelled as real numbers where square roots and
    powers occur (heat engagement, time decay) and as rationals elsewhere;
    `round(x, n)` is modelled by integer rounding of `10^n * x` (Python's
    banker's rounding differs only on exact midpoints, which no claim
    touches).
  * The database session is a `Store` value holding the Content, Score,
    Tag and ContentTag tables as lists in insertion order; SQLAlchemy
    queries become list filters in the same condition order.
  * A Python `try/except` around a scorer body is modelled by an explicit
    exception oracle `exn : Content → Option String` saying whether the
    body raises on a given item and with which message; the typed model
    itself has no failing states.
-/

namespace NexusZero

/-- Content record (src/src/models/content.py); fields are limited to the
ones the scorers and the brief generator read.  `content` is the body
text, `created_at` is the row-creation timestamp from the model base
class. -/
structure Content where
  id : ℕ
  platform : String
  content : String := ""
  title : Option String := none
  author_id : Option String := none
  published_at : Option ℚ := none
  raw_metrics : List (String × ℚ) := []
  media_urls : List String := []
  is_processed : Bool := false
  is_briefed : Bool := false
  created_at : ℚ := 0
deriving DecidableEq

/-- Value stored in a Score's `factors` JSON map: a rounded number, an
error message, or the echoed raw-metrics map. -/
inductive FVal where
  | num : ℚ → FVal
  | str : String → FVal
  | metricsMap : List (String × ℚ) → FVal
deriving DecidableEq

/-- Score record (src/src/models/score.py). -/
structure Score where
  content_id : ℕ
  score_type : String
  score : ℚ
  factors : List (String × FVal) := []
  algorithm_version : String := "1.0"
deriving DecidableEq

/-- Tag record (src/src/models/tag.py). -/
structure Tag where
  id : ℕ
  name : String
  category : String
deriving DecidableEq

/-- ContentTag association row (src/src/models/tag.py). -/
structure ContentTag where
  content_id : ℕ
  tag_id : ℕ
deriving DecidableEq

/-- The database: each table as a list in insertion order. -/
structure Store where
  contents : List Content := []
  scores : List Score := []
  tags : List Tag := []
  content_tags : List ContentTag := []
deriving DecidableEq

/-- Result of a scoring operation (ScoreResult in src/src/scorer/base.py). -/
structure ScoreResult where
  score : ℚ
  factors : List (String × FVal)
  success : Bool := true
  error : Option String := none
deriving DecidableEq

/-- Python `metrics.get(key, 0)` on the raw-metrics map. -/
def get_metric (metrics : List (String × ℚ)) (key : String) : ℚ :=
  (metrics.lookup key).getD 0

/-! ## Heat scorer (src/src/scorer/heat_scorer.py) -/

namespace HeatScorer

/-- METRIC_WEIGHTS class constant. -/
def METRIC_WEIGHTS : List (String × ℚ) :=
  [("views", 0.1), ("likes", 1.0), ("reposts", 2.0), ("comments", 3.0), ("bookmarks", 2.5)]

/-- HALF_LIFE_HOURS class constant. -/
def HALF_LIFE_HOURS : ℚ := 24

/-- MIN_DECAY class constant. -/
def MIN_DECAY : ℚ := 0.1

/-- The weighted-sum loop of `_calculate_engagement`: each metric value
(views first compressed by `10 * sqrt(1 + views/1000)`) times its weight,
summed. -/
noncomputable def calculate_engagement_sum (metrics : List (String × ℚ)) : ℝ :=
  (METRIC_WEIGHTS.map (fun mw =>
    (if mw.1 = "views" ∧ 0 < get_metric metrics mw.1 then
        10 * Real.sqrt (1 + (get_metric metrics mw.1 : ℝ) / 1000)
      else ((get_metric metrics mw.1 : ℚ) : ℝ)) * (mw.2 : ℝ))).sum

/-- `_calculate_engagement`: the weighted sum with the global compressive
transform `10 * sqrt(1 + sum)` applied when the sum is positive. -/
noncomputable def calculate_engagement (metrics : List (String × ℚ)) : ℝ :=
  if 0 < calculate_engagement_sum metrics then
    10 * Real.sqrt (1 + calculate_engagement_sum metrics)
  else calculate_engagement_sum metrics

/-- Hours elapsed between `now` and a publish timestamp, both in seconds:
`(now - published_at).total_seconds() / 3600`. -/
def hours_since_publish (now published_at : ℚ) : ℚ :=
  (now - published_at) / 3600

/-- `_calculate_time_decay`: `max(MIN_DECAY, 0.5 ^ (hours / HALF_LIFE_HOURS))`,
and 1.0 for undated content. -/
noncomputable def calculate_time_decay (now : ℚ) (published_at : Option ℚ) : ℝ :=
  match published_at with
  | none => 1
  | some p =>
      max ((MIN_DECAY : ℝ))
        ((1 / 2 : ℝ) ^ (((hours_since_publish now p : ℚ) : ℝ) / (HALF_LIFE_HOURS : ℝ)))

/-- `_get_platform_factor`: per-platform multiplier with default 1.0. -/
def get_platform_factor (platform : String) : ℚ :=
  (([("x", 1.0), ("reddit", 0.8), ("rss", 0.5), ("xiaohongshu", 1.2)] :
      List (String × ℚ)).lookup platform).getD 1.0

end HeatScorer

/-- Round a real to 2 decimal places, yielding the rational result
(Python `round(x, 2)`). -/
noncomputable def round2R (x : ℝ) : ℚ :=
  ((round (100 * x) : ℤ) : ℚ) / 100

/-- Round a real to 4 decimal places (Python `round(x, 4)`). -/
noncomputable def round4R (x : ℝ) : ℚ :=
  ((round (10000 * x) : ℤ) : ℚ) / 10000

/-- Round a rational to 2 decimal places (Python `round(x, 2)`). -/
def round2Q (x : ℚ) : ℚ :=
  ((round (100 * x) : ℤ) : ℚ) / 100

/-- The unclamped heat score: engagement × decay × platform factor. -/
noncomputable def HeatScorer.heat_raw (now : ℚ) (c : Content) : ℝ :=
  HeatScorer.calculate_engagement c.raw_metrics *
    HeatScorer.calculate_time_decay now c.published_at *
    ((HeatScorer.get_platform_factor c.platform : ℚ) : ℝ)

/-- `HeatScorer.calculate`: engagement × decay × platform factor, clamped
to [0, 100] and rounded to 2 decimals; the surrounding `try/except` is
modelled by the oracle `exn`, whose message is returned as a failed
ScoreResult exactly as the `except` branch builds it. -/
noncomputable def HeatScorer.calculate (exn : Content → Option String) (now : ℚ)
    (c : Content) : ScoreResult :=
  match exn c with
  | some e => { score := 0, factors := [("error", FVal.str e)], success := false, error := some e }
  | none =>
      { score := round2R (min 100 (max 0 (HeatScorer.heat_raw now c))),
        factors :=
          [("engagement_score", FVal.num (round2R (HeatScorer.calculate_engagement c.raw_metrics))),
           ("decay_factor", FVal.num (round4R (HeatScorer.calculate_time_decay now c.published_at))),
           ("platform_factor", FVal.num (round2Q (HeatScorer.get_platform_factor c.platform))),
           ("raw_metrics", FVal.metricsMap c.raw_metrics)] }

/-! ## Base scorer persistence (src/src/scorer/base.py) -/

/-- Upsert of a Score row keyed on (content_id, score_type): the first
existing row is updated in place, otherwise the new row is appended
(`score_content`'s existing/create branches). -/
def upsert_score : List Score → Score → List Score
  | [], new => [new]
  | s :: rest, new =>
      if s.content_id = new.content_id ∧ s.score_type = new.score_type then
        { s with score := new.score, factors := new.factors,
                 algorithm_version := new.algorithm_version } :: rest
      else s :: upsert_score rest new

/-- `BaseScorer.score_content`: run `calculate`; on failure return None and
touch nothing; on success upsert the Score row and set the content's
`is_processed` flag. -/
def score_content (calcF : Content → ScoreResult) (stype ver : String)
    (db : Store) (c : Content) : Option Score × Store :=
  let result := calcF c
  if result.success = false then (none, db)
  else
    let s : Score :=
      { content_id := c.id, score_type := stype, score := result.score,
        factors := result.factors, algorithm_version := ver }
    (some s,
      { db with
          scores := upsert_score db.scores s,
          contents := db.contents.map (fun d =>
            if d.id = c.id then { d with is_processed := true } else d) })

/-- `BaseScorer.score_batch`: fold `score_content` over the items, counting
the ones that produced a Score; a per-item failure contributes nothing and
the batch continues. -/
def score_batch (calcF : Content → ScoreResult) (stype ver : String) :
    List Content → Store → ℕ × Store
  | [], db => (0, db)
  | c :: cs, db =>
      let r := score_content calcF stype ver db c
      let rest := score_batch calcF stype ver cs r.2
      (match r.1 with
       | some _ => rest.1 + 1
       | none => rest.1, rest.2)

/-- The query filter of `score_unprocessed`: contents with
`is_processed == False`. -/
def unprocessed_contents (db : Store) : List Content :=
  db.contents.filter (fun d => d.is_processed = false)

/-! ## Potential scorer (src/src/scorer/potential_scorer.py) -/

namespace PotentialScorer

/-- COMPONENT_WEIGHTS class constant. -/
def COMPONENT_WEIGHTS : List (String × ℚ) :=
  [("content_quality", 0.30), ("author_weight", 0.20), ("engagement_rate", 0.25),
   ("growth_trend", 0.15), ("scarcity", 0.10)]

/-- `_calculate_content_quality`: base 50, length bonuses/penalty, +10 for
a title longer than 10 chars, +10 for media, +5 for an "http" substring,
capped at 100. -/
def calculate_content_quality (c : Content) : ℚ :=
  let text := c.content
  let text_length := text.length
  let length_bonus : ℚ :=
    if 200 ≤ text_length ∧ text_length ≤ 2000 then 20
    else if 100 ≤ text_length ∧ text_length < 200 then 10
    else if 2000 < text_length then 15
    else if text_length < 50 then -20
    else 0
  let title_bonus : ℚ :=
    match c.title with
    | some t => if 10 < t.length then 10 else 0
    | none => 0
  let media_bonus : ℚ := if 0 < c.media_urls.length then 10 else 0
  let url_bonus : ℚ := if ("http".toList <:+: text.toList) then 5 else 0
  min 100 (50 + length_bonus + title_bonus + media_bonus + url_bonus)

/-- The `_calculate_author_weight` query: Score joined to Content, filtered
to the same platform and author id, excluding the current content id, over
all score types. -/
def query_author_scores (db : Store) (c : Content) : List ℚ :=
  db.scores.filterMap (fun s =>
    match db.contents.find? (fun d => d.id == s.content_id) with
    | some d =>
        if d.platform = c.platform ∧ d.author_id = c.author_id ∧ d.id ≠ c.id then
          some s.score
        else none
    | none => none)

/-- `_calculate_author_weight` with its per-instance cache threaded through:
50 with no author id, the cached value on a hit, otherwise 55 for a new
author or the clamped average of all the author's other scores, and the
computed value is added to the cache. -/
def calculate_author_weight (db : Store) (cache : List (String × ℚ)) (c : Content) :
    ℚ × List (String × ℚ) :=
  match c.author_id with
  | none => (50, cache)
  | some aid =>
      let cache_key := c.platform ++ ":" ++ aid
      match cache.lookup cache_key with
      | some w => (w, cache)
      | none =>
          let author_scores := query_author_scores db c
          let weight : ℚ :=
            if author_scores = [] then 55
            else min 100 (max 0 (author_scores.sum / (author_scores.length : ℚ)))
          (weight, (cache_key, weight) :: cache)

/-- `_calculate_engagement_rate`: threshold mapping of weighted
interactions, absolute when views = 0 and per-view otherwise. -/
def calculate_engagement_rate (c : Content) : ℚ :=
  let metrics := c.raw_metrics
  let views := get_metric metrics "views"
  let likes := get_metric metrics "likes"
  let comments := get_metric metrics "comments"
  let reposts := get_metric metrics "reposts"
  let bookmarks := get_metric metrics "bookmarks"
  let total_engagement := likes + comments * 2 + reposts * 3 + bookmarks * 2
  if views = 0 then
    if 100 < total_engagement then 70
    else if 50 < total_engagement then 60
    else if 10 < total_engagement then 50
    else 40
  else
    let engagement_rate := total_engagement / views
    if 0.20 < engagement_rate then 90
    else if 0.15 < engagement_rate then 80
    else if 0.10 < engagement_rate then 70
    else if 0.05 < engagement_rate then 60
    else if 0.02 < engagement_rate then 50
    else 40

/-- `_calculate_growth_trend`: engagement velocity per hour (hours floored
at 1) mapped through thresholds; 50 for undated content. -/
def calculate_growth_trend (now : ℚ) (c : Content) : ℚ :=
  match c.published_at with
  | none => 50
  | some p =>
      let hours_elapsed0 := (now - p) / 3600
      let hours_elapsed := if hours_elapsed0 < 1 then 1 else hours_elapsed0
      let metrics := c.raw_metrics
      let total_engagement :=
        get_metric metrics "likes" + get_metric metrics "comments" +
        get_metric metrics "reposts" + get_metric metrics "bookmarks"
      let velocity := total_engagement / hours_elapsed
      if 100 < velocity then 90
      else if 50 < velocity then 80
      else if 20 < velocity then 70
      else if 10 < velocity then 60
      else if 5 < velocity then 50
      else 40

/-- The first `_calculate_scarcity` count query: same-platform contents
created after the start of the current UTC day. -/
def same_day_count (db : Store) (day_start : ℚ) (platform : String) : ℕ :=
  (db.contents.filter (fun d =>
    d.platform == platform && decide (day_start < d.created_at))).length

/-- The second `_calculate_scarcity` count query: same-platform contents
created after the start of the day and strictly before this item. -/
def same_day_earlier_count (db : Store) (day_start : ℚ) (c : Content) : ℕ :=
  (db.contents.filter (fun d =>
    d.platform == c.platform && decide (d.created_at < c.created_at) &&
      decide (day_start < d.created_at))).length

/-- `_calculate_scarcity`: 70 when the same-day count is zero, otherwise
`40 + (1 - position / max(count, 1)) * 40`. -/
def calculate_scarcity (db : Store) (day_start : ℚ) (c : Content) : ℚ :=
  let recent_count := same_day_count db day_start c.platform
  if recent_count = 0 then 70
  else
    let daily_position := same_day_earlier_count db day_start c
    40 + (1 - (daily_position : ℚ) / ((max recent_count 1 : ℕ) : ℚ)) * 40

/-- The unclamped weighted sum of the five potential sub-scores, with the
COMPONENT_WEIGHTS values 0.30 / 0.20 / 0.25 / 0.15 / 0.10. -/
def potential_raw (db : Store) (now day_start : ℚ) (cache : List (String × ℚ))
    (c : Content) : ℚ :=
  calculate_content_quality c * 0.30 +
    (calculate_author_weight db cache c).1 * 0.20 +
    calculate_engagement_rate c * 0.25 +
    calculate_growth_trend now c * 0.15 +
    calculate_scarcity db day_start c * 0.10

/-- `PotentialScorer.calculate`: weighted sum of the five sub-scores,
clamped to [0, 100] and rounded to 2 decimals; the author cache is
threaded through and the `try/except` is modelled by the oracle `exn`. -/
def calculate (exn : Content → Option String) (db : Store) (now day_start : ℚ)
    (cache : List (String × ℚ)) (c : Content) : ScoreResult × List (String × ℚ) :=
  match exn c with
  | some e =>
      ({ score := 0, factors := [("error", FVal.str e)], success := false, error := some e },
       cache)
  | none =>
      ({ score := round2Q (min 100 (max 0 (potential_raw db now day_start cache c))),
         factors :=
           [("content_quality", FVal.num (round2Q (calculate_content_quality c))),
            ("author_weight", FVal.num (round2Q (calculate_author_weight db cache c).1)),
            ("engagement_rate", FVal.num (round2Q (calculate_engagement_rate c))),
            ("growth_trend", FVal.num (round2Q (calculate_growth_trend now c))),
            ("scarcity", FVal.num (round2Q (calculate_scarcity db day_start c)))] },
       (calculate_author_weight db cache c).2)

end PotentialScorer

/-! ## Brief selection (src/src/brief/generator.py) -/

namespace BriefGenerator

/-- HEAT_TOP_COUNT class constant. -/
def HEAT_TOP_COUNT : ℕ := 10

/-- POTENTIAL_TOP_COUNT class constant. -/
def POTENTIAL_TOP_COUNT : ℕ := 5

/-- TOPICS_PER_CATEGORY class constant. -/
def TOPICS_PER_CATEGORY : ℕ := 3

/-- TOPIC_CATEGORIES class constant. -/
def TOPIC_CATEGORIES : List String := ["AI", "科技", "投资", "生活", "娱乐", "设计"]

/-- The per-content Score lookup used by the selectors:
`db.query(Score.score).filter(content_id, score_type).scalar()`. -/
def lookup_score (db : Store) (cid : ℕ) (stype : String) : Option ℚ :=
  (db.scores.find? (fun s => s.content_id == cid && s.score_type == stype)).map
    (fun s => s.score)

/-- The comparator realized by Python's stable
`sort(key=lambda x: x[1], reverse=True)`. -/
def score_desc (a b : ℕ × ℚ) : Bool := decide (b.2 ≤ a.2)

/-- The (id, heat score) pairs accumulated by `_select_heat_top`; the
Python guard `if heat_score:` keeps a record only when it is present and
its value is nonzero (truthiness). -/
def heat_candidates (db : Store) (contents : List Content) : List (ℕ × ℚ) :=
  contents.filterMap (fun c =>
    match lookup_score db c.id "heat" with
    | some h => if h ≠ 0 then some (c.id, h) else none
    | none => none)

/-- `_select_heat_top`: stable descending sort of the candidate pairs by
score, top HEAT_TOP_COUNT ids. -/
def select_heat_top (db : Store) (contents : List Content) : List ℕ :=
  (((heat_candidates db contents).mergeSort score_desc).take HEAT_TOP_COUNT).map Prod.fst

/-- The candidate pairs of `_select_potential`: potential score > 70 and
heat score < 30, both defaulting to 0 when absent (`scalar() or 0`). -/
def potential_candidates (db : Store) (contents : List Content) : List (ℕ × ℚ) :=
  contents.filterMap (fun c =>
    let heat_score := (lookup_score db c.id "heat").getD 0
    let potential_score := (lookup_score db c.id "potential").getD 0
    if 70 < potential_score ∧ heat_score < 30 then some (c.id, potential_score)
    else none)

/-- `_select_potential`: descending sort of the candidates by potential
score, top POTENTIAL_TOP_COUNT ids. -/
def select_potential (db : Store) (contents : List Content) : List ℕ :=
  (((potential_candidates db contents).mergeSort score_desc).take POTENTIAL_TOP_COUNT).map
    Prod.fst

/-- Python `dict.fromkeys` deduplication: keep the first occurrence of
each id, preserving order; `seen` holds the keys already emitted. -/
def dedup_first_occurrence (seen : List ℕ) : List ℕ → List ℕ
  | [] => []
  | x :: xs =>
      if x ∈ seen then dedup_first_occurrence seen xs
      else x :: dedup_first_occurrence (x :: seen) xs

/-- `_select_featured`: heat-top ids then potential ids, deduplicated
keeping first occurrences, capped at 15. -/
def select_featured (heat_top_ids potential_ids : List ℕ) : List ℕ :=
  (dedup_first_occurrence [] (heat_top_ids ++ potential_ids)).take 15

/-- `_get_topic_breakdown`: for each fixed topic category whose Tag row
exists, the first TOPICS_PER_CATEGORY content ids linked to that tag in
the whole store; the day's `contents` argument is accepted and ignored,
exactly as in the source. -/
def get_topic_breakdown (db : Store) (contents : List Content) :
    List (String × List ℕ) :=
  TOPIC_CATEGORIES.filterMap (fun topic =>
    match db.tags.find? (fun t => t.name == topic && t.category == "topic") with
    | none => none
    | some tag =>
        some (topic,
          ((db.content_tags.filter (fun ct => ct.tag_id == tag.id)).take
            TOPICS_PER_CATEGORY).map (fun ct => ct.content_id)))

end BriefGenerator

/-! ## Concrete fixtures used by counterexamples and witnesses -/

/-- Fixture: an item whose heat Score record exists with value 0. -/
def cHeat0 : Content := { id := 1, platform := "x" }

/-- Fixture store containing `cHeat0` and its zero-valued heat Score. -/
def dbHeat0 : Store :=
  { contents := [cHeat0], scores := [{ content_id := 1, score_type := "heat", score := 0 }] }

/-- Fixture: an item with a nonzero heat score. -/
def cHeat50 : Content := { id := 2, platform := "x" }

/-- Fixture store containing `cHeat50` and its heat Score of 50. -/
def dbHeat50 : Store :=
  { contents := [cHeat50], scores := [{ content_id := 2, score_type := "heat", score := 50 }] }

/-- Fixture: the first same-platform item created in the current UTC day
(created_at 10, day start 0). -/
def cFirstOfDay : Content := { id := 1, platform := "x", created_at := 10 }

/-- Fixture store whose only content is `cFirstOfDay`. -/
def dbFirstOfDay : Store := { contents := [cFirstOfDay] }

/-- Fixture: an item with potential 80 and heat 10. -/
def cPotHigh : Content := { id := 3, platform := "x" }

/-- Fixture store for the potential-top selection. -/
def dbPotHigh : Store :=
  { contents := [cPotHigh],
    scores := [{ content_id := 3, score_type := "potential", score := 80 },
               { content_id := 3, score_type := "heat", score := 10 }] }

/-- Fixture: prior content 1 of author alice on platform x. -/
def cAlice1 : Content := { id := 1, platform := "x", author_id := some "alice" }

/-- Fixture: prior content 2 of author alice on platform x. -/
def cAlice2 : Content := { id := 2, platform := "x", author_id := some "alice" }

/-- Fixture: the new item by author alice being scored. -/
def cAliceNew : Content := { id := 3, platform := "x", author_id := some "alice" }

/-- Fixture store: alice has two prior scored items with scores 60 and 70
(one heat, one potential), averaging 65. -/
def dbAlice : Store :=
  { contents := [cAlice1, cAlice2, cAliceNew],
    scores := [{ content_id := 1, score_type := "heat", score := 60 },
               { content_id := 2, score_type := "potential", score := 70 }] }

/-- Fixture: an item with no author id. -/
def cNoAuthor : Content := { id := 9, platform := "x" }

/-- Fixture: a content linked to the AI topic tag but published outside
the brief day window [0, 86400). -/
def cTagged : Content := { id := 7, platform := "rss", published_at := some 200000 }

/-- Fixture: a content published inside the day window [0, 86400). -/
def cInWindow : Content := { id := 8, platform := "x", published_at := some 100 }

/-- Fixture store for the topic breakdown: the AI topic tag exists and is
linked only to the out-of-window content `cTagged`. -/
def dbTopic : Store :=
  { contents := [cTagged, cInWindow],
    tags := [{ id := 1, name := "AI", category := "topic" }],
    content_tags := [{ content_id := 7, tag_id := 1 }] }

/-- Fixture: the day contents of `dbTopic` for the window [0, 86400). -/
def dayContentsTopic : List Content := [cInWindow]

/-- Fixture: an undated content with empty metrics, published by nobody. -/
def cEmpty : Content := { id := 4, platform := "x" }

/-- Fixture: content published at epoch 0. -/
def cFresh : Content := { id := 5, platform := "x", published_at := some 0 }

/-- Fixture: the same content published one hour earlier. -/
def cOlder : Content := { id := 5, platform := "x", published_at := some (-3600) }

/-- Fixture: a calculate function that always fails. -/
def calcAlwaysFail : Content → ScoreResult :=
  fun _ => { score := 0, factors := [], success := false, error := some "boom" }

/-! ## Helper lemmas -/

theorem mem_of_lookup_eq_some {α β : Type} [BEq α] [LawfulBEq α]
    {l : List (α × β)} {a : α} {b : β} (h : l.lookup a = some b) : (a, b) ∈ l := by
  induction l with
  | nil => simp [List.lookup] at h
  | cons hd tl ih =>
      obtain ⟨k, v⟩ := hd
      rw [List.lookup] at h
      rcases hak : a == k with _ | _
      · rw [hak] at h
        simp only [List.mem_cons]
        exact Or.inr (ih h)
      · rw [hak] at h
        simp only [Option.some.injEq] at h
        have hk : a = k := eq_of_beq hak
        simp [hk, ← h]

theorem mem_dedup_first_occurrence {x : ℕ} :
    ∀ (l seen : List ℕ),
      x ∈ BriefGenerator.dedup_first_occurrence seen l ↔ x ∈ l ∧ x ∉ seen := by
  intro l
  induction l with
  | nil => intro seen; simp [BriefGenerator.dedup_first_occurrence]
  | cons y ys ih =>
      intro seen
      unfold BriefGenerator.dedup_first_occurrence
      by_cases hy : y ∈ seen
      · rw [if_pos hy, ih]
        by_cases hxy : x = y
        · subst hxy; simp [hy]
        · simp [hxy]
      · rw [if_neg hy]
        by_cases hxy : x = y
        · subst hxy; simp [hy]
        · simp only [List.mem_cons, ih, List.mem_cons]
          constructor
          · rintro (h | ⟨hmem, hns⟩)
            · exact absurd h hxy
            · exact ⟨Or.inr hmem, fun hs => hns (Or.inr hs)⟩
          · rintro ⟨h | hmem, hns⟩
            · exact absurd h hxy
            · exact Or.inr ⟨hmem, fun hs => hns (by rcases hs with h | h; exact absurd h hxy; exact h)⟩

theorem dedup_first_occurrence_sublist :
    ∀ (l seen : List ℕ), (BriefGenerator.dedup_first_occurrence seen l).Sublist l := by
  intro l
  induction l with
  | nil => intro seen; simp [BriefGenerator.dedup_first_occurrence]
  | cons y ys ih =>
      intro seen
      unfold BriefGenerator.dedup_first_occurrence
      by_cases hy : y ∈ seen
      · rw [if_pos hy]
        exact (ih seen).cons y
      · rw [if_neg hy]
        exact (ih (y :: seen)).cons₂ y

theorem dedup_first_occurrence_nodup :
    ∀ (l seen : List ℕ), (BriefGenerator.dedup_first_occurrence seen l).Nodup := by
  intro l
  induction l with
  | nil => intro seen; simp [BriefGenerator.dedup_first_occurrence]
  | cons y ys ih =>
      intro seen
      unfold BriefGenerator.dedup_first_occurrence
      by_cases hy : y ∈ seen
      · rw [if_pos hy]; exact ih seen
      · rw [if_neg hy]
        refine List.Nodup.cons ?_ (ih (y :: seen))
        intro hmem
        exact ((mem_dedup_first_occurrence ys (y :: seen)).mp hmem).2 (List.mem_cons_self y seen)

theorem score_content_none_of_failure (calcF : Content → ScoreResult) (stype ver : String)
    (db : Store) (c : Content) (hfail : (calcF c).success = false) :
    score_content calcF stype ver db c = (none, db) := by
  unfold score_content
  rw [if_pos hfail]

theorem score_desc_trans : ∀ a b c : ℕ × ℚ, BriefGenerator.score_desc a b = true →
    BriefGenerator.score_desc b c = true → BriefGenerator.score_desc a c = true := by
  intro a b c
  simp only [BriefGenerator.score_desc, decide_eq_true_eq]
  exact fun h1 h2 => le_trans h2 h1

theorem score_desc_total : ∀ a b : ℕ × ℚ,
    (BriefGenerator.score_desc a b || BriefGenerator.score_desc b a) = true := by
  intro a b
  simp only [BriefGenerator.score_desc, Bool.or_eq_true, decide_eq_true_eq]
  exact le_total b.2 a.2

theorem pairwise_desc_of_sorted {l : List (ℕ × ℚ)}
    (hs : List.Pairwise (fun a b => BriefGenerator.score_desc a b = true) l) :
    List.Pairwise (fun a b : ℕ × ℚ => b.2 ≤ a.2) l := by
  refine hs.imp ?_
  intro a b h
  simpa [BriefGenerator.score_desc] using h

theorem sorted_take_le {l : List (ℕ × ℚ)} {n : ℕ}
    (hs : List.Pairwise (fun a b => BriefGenerator.score_desc a b = true) l) :
    ∀ p ∈ l, p ∉ l.take n → ∀ q ∈ l.take n, p.2 ≤ q.2 := by
  intro p hp hpn q hq
  rw [← List.take_append_drop n l] at hp hs
  have hd : p ∈ l.drop n := by
    rcases List.mem_append.mp hp with h | h
    · exact absurd h hpn
    · exact h
  obtain ⟨_, _, hcross⟩ := List.pairwise_append.mp hs
  have := hcross q hq p hd
  simpa [BriefGenerator.score_desc] using this

theorem round_mono_of_le {α : Type} [LinearOrderedField α] [FloorRing α] {x y : α}
    (h : x ≤ y) : round x ≤ round y := by
  rw [round_eq, round_eq]
  exact Int.floor_mono (by linarith)

theorem round_hundredths_bounds {α : Type} [LinearOrderedField α] [FloorRing α] {x : α}
    (h0 : 0 ≤ x) (h1 : x ≤ 100) :
    0 ≤ ((round (100 * x) : ℤ) : ℚ) / 100 ∧ ((round (100 * x) : ℤ) : ℚ) / 100 ≤ 100 := by
  have ha : (0 : ℤ) ≤ round (100 * x) := by
    have h := round_mono_of_le (show (0 : α) ≤ 100 * x by nlinarith)
    rwa [round_zero] at h
  have hb : round (100 * x) ≤ 10000 := by
    have h := round_mono_of_le (show 100 * x ≤ ((10000 : ℤ) : α) by push_cast; nlinarith)
    rwa [round_intCast] at h
  constructor
  · exact div_nonneg (by exact_mod_cast ha) (by norm_num)
  · rw [div_le_iff (by norm_num : (0 : ℚ) < 100)]
    have hc : ((round (100 * x) : ℤ) : ℚ) ≤ ((10000 : ℤ) : ℚ) := Int.cast_le.mpr hb
    push_cast at hc
    linarith

theorem round2R_mono {x y : ℝ} (h : x ≤ y) : round2R x ≤ round2R y := by
  unfold round2R
  have h2 := round_mono_of_le (show 100 * x ≤ 100 * y by linarith)
  have h3 : ((round (100 * x) : ℤ) : ℚ) ≤ ((round (100 * y) : ℤ) : ℚ) := Int.cast_le.mpr h2
  exact (div_le_div_iff_of_pos_right (by norm_num)).mpr h3

theorem get_metric_nonneg (metrics : List (String × ℚ)) (key : String)
    (h : ∀ k v, (k, v) ∈ metrics → 0 ≤ v) : 0 ≤ get_metric metrics key := by
  unfold get_metric
  rcases hl : metrics.lookup key with _ | v
  · simp
  · simpa using h key v (mem_of_lookup_eq_some hl)

theorem metric_weights_nonneg : ∀ mw ∈ HeatScorer.METRIC_WEIGHTS, 0 ≤ mw.2 := by
  intro mw hmw
  fin_cases hmw <;> norm_num

theorem calculate_engagement_sum_nonneg (metrics : List (String × ℚ))
    (h : ∀ k v, (k, v) ∈ metrics → 0 ≤ v) :
    0 ≤ HeatScorer.calculate_engagement_sum metrics := by
  unfold HeatScorer.calculate_engagement_sum
  refine List.sum_nonneg ?_
  intro x hx
  rw [List.mem_map] at hx
  obtain ⟨mw, hmw, hfx⟩ := hx
  rw [← hfx]
  refine mul_nonneg ?_ (by exact_mod_cast metric_weights_nonneg mw hmw)
  split
  · positivity
  · exact_mod_cast get_metric_nonneg metrics mw.1 h

theorem calculate_engagement_nonneg (metrics : List (String × ℚ))
    (h : ∀ k v, (k, v) ∈ metrics → 0 ≤ v) :
    0 ≤ HeatScorer.calculate_engagement metrics := by
  unfold HeatScorer.calculate_engagement
  split
  · positivity
  · exact calculate_engagement_sum_nonneg metrics h

theorem get_platform_factor_pos (p : String) : 0 < HeatScorer.get_platform_factor p := by
  unfold HeatScorer.get_platform_factor
  set L : List (String × ℚ) :=
    [("x", 1.0), ("reddit", 0.8), ("rss", 0.5), ("xiaohongshu", 1.2)] with hL
  rcases hl : L.lookup p with _ | v
  · norm_num [Option.getD]
  · rw [Option.getD_some]
    have hmem := mem_of_lookup_eq_some hl
    rw [hL] at hmem
    simp only [List.mem_cons, List.not_mem_nil, or_false, Prod.mk.injEq] at hmem
    rcases hmem with ⟨_, hv⟩ | ⟨_, hv⟩ | ⟨_, hv⟩ | ⟨_, hv⟩ <;> rw [hv] <;> norm_num

theorem calculate_time_decay_ge (now p : ℚ) :
    ((HeatScorer.MIN_DECAY : ℚ) : ℝ) ≤ HeatScorer.calculate_time_decay now (some p) := by
  unfold HeatScorer.calculate_time_decay
  exact le_max_left _ _

theorem calculate_time_decay_antitone (now p1 p2 : ℚ)
    (h : HeatScorer.hours_since_publish now p1 ≤ HeatScorer.hours_since_publish now p2) :
    HeatScorer.calculate_time_decay now (some p2) ≤
      HeatScorer.calculate_time_decay now (some p1) := by
  unfold HeatScorer.calculate_time_decay
  refine max_le_max le_rfl ?_
  refine Real.rpow_le_rpow_of_exponent_ge (by norm_num) (by norm_num) ?_
  have hc : ((HeatScorer.hours_since_publish now p1 : ℚ) : ℝ) ≤
      ((HeatScorer.hours_since_publish now p2 : ℚ) : ℝ) := by exact_mod_cast h
  have h24 : (0 : ℝ) < ((HeatScorer.HALF_LIFE_HOURS : ℚ) : ℝ) := by
    norm_num [HeatScorer.HALF_LIFE_HOURS]
  exact (div_le_div_iff_of_pos_right h24).mpr hc

/-! ## Claim theorems -/

/-- Claim C6: the featured list is the concatenation heat-top-then-potential
with duplicates removed preserving first-occurrence order (an order-preserving
subsequence containing every id when nothing is cut), truncated to at most 15
ids; it never contains a duplicate and its length is at most 15. -/
theorem select_featured_spec (heat_top_ids potential_ids : List ℕ) :
    (BriefGenerator.select_featured heat_top_ids potential_ids).Nodup ∧
    (BriefGenerator.select_featured heat_top_ids potential_ids).length ≤ 15 ∧
    (BriefGenerator.select_featured heat_top_ids potential_ids).Sublist
      (heat_top_ids ++ potential_ids) ∧
    ((BriefGenerator.dedup_first_occurrence [] (heat_top_ids ++ potential_ids)).length ≤ 15 →
      ∀ x ∈ heat_top_ids ++ potential_ids,
        x ∈ BriefGenerator.select_featured heat_top_ids potential_ids) := by
  unfold BriefGenerator.select_featured
  refine ⟨?_, ?_, ?_, ?_⟩
  · exact (List.take_sublist _ _).nodup (dedup_first_occurrence_nodup _ _)
  · rw [List.length_take]
    exact min_le_left _ _
  · exact (List.take_sublist _ _).trans (dedup_first_occurrence_sublist _ _)
  · intro hlen x hx
    rw [List.take_of_length_le hlen]
    exact (mem_dedup_first_occurrence _ _).mpr ⟨hx, List.not_mem_nil x⟩

/-- Witness for C6: on heat-top [1, 2] and potential [2, 3] the duplicate 2
is removed and 3 is kept. -/
theorem select_featured_spec_witness :
    3 ∈ BriefGenerator.select_featured [1, 2] [2, 3] :=
  (select_featured_spec [1, 2] [2, 3]).2.2.2 (by decide) 3 (by decide)

/-- Claim C9: when calculate reports failure, score_content returns None and
leaves the store unchanged — no Score row is written, the content keeps its
processed flag, and the item is still returned by the unprocessed query. -/
theorem score_content_failure_atomic (calcF : Content → ScoreResult) (stype ver : String)
    (db : Store) (c : Content) (hfail : (calcF c).success = false) :
    score_content calcF stype ver db c = (none, db) ∧
    (score_content calcF stype ver db c).2.scores = db.scores ∧
    unprocessed_contents (score_content calcF stype ver db c).2 = unprocessed_contents db := by
  have h := score_content_none_of_failure calcF stype ver db c hfail
  exact ⟨h, by rw [h], by rw [h]⟩

/-- Witness for C9: a failing calculate on a concrete store leaves it intact. -/
theorem score_content_failure_atomic_witness :
    (calcAlwaysFail cHeat50).success = false ∧
    score_content calcAlwaysFail "heat" "1.0" dbHeat50 cHeat50 = (none, dbHeat50) :=
  ⟨rfl, (score_content_failure_atomic calcAlwaysFail "heat" "1.0" dbHeat50 cHeat50 rfl).1⟩

/-- Counterexample to C2: a first-of-day item that is itself stored gets
scarcity 80, not 70 — the same-day count query sees the item itself, so the
zero-count branch returning 70 is not taken. -/
theorem calculate_scarcity_first_item_counterexample :
    cFirstOfDay ∈ dbFirstOfDay.contents ∧
    PotentialScorer.same_day_earlier_count dbFirstOfDay 0 cFirstOfDay = 0 ∧
    PotentialScorer.calculate_scarcity dbFirstOfDay 0 cFirstOfDay = 80 ∧
    PotentialScorer.calculate_scarcity dbFirstOfDay 0 cFirstOfDay ≠ 70 := by
  have h80 : PotentialScorer.calculate_scarcity dbFirstOfDay 0 cFirstOfDay = 80 := by
    norm_num [PotentialScorer.calculate_scarcity, PotentialScorer.same_day_count,
      PotentialScorer.same_day_earlier_count, dbFirstOfDay, cFirstOfDay, List.filter]
  refine ⟨by decide, by decide, h80, by rw [h80]; norm_num⟩

/-- Claim C2 (amended): for an item present in the store and created after the
start of the current UTC day with zero same-day same-platform predecessors,
the scarcity sub-score is 80; the value 70 is returned exactly when the
same-day same-platform count is zero, which cannot happen for a stored
same-day item. -/
theorem calculate_scarcity_spec :
    (∀ (db : Store) (day_start : ℚ) (c : Content),
        c ∈ db.contents → day_start < c.created_at →
        PotentialScorer.same_day_earlier_count db day_start c = 0 →
        PotentialScorer.calculate_scarcity db day_start c = 80) ∧
    (∀ (db : Store) (day_start : ℚ) (c : Content),
        PotentialScorer.same_day_count db day_start c.platform = 0 →
        PotentialScorer.calculate_scarcity db day_start c = 70) := by
  constructor
  · intro db day_start c hmem hday hpred
    have hrec : PotentialScorer.same_day_count db day_start c.platform ≠ 0 := by
      unfold PotentialScorer.same_day_count
      have hcmem : c ∈ db.contents.filter
          (fun d => d.platform == c.platform && decide (day_start < d.created_at)) := by
        rw [List.mem_filter]
        exact ⟨hmem, by simp [hday]⟩
      intro hlen
      rw [List.length_eq_zero] at hlen
      rw [hlen] at hcmem
      exact List.not_mem_nil c hcmem
    unfold PotentialScorer.calculate_scarcity
    rw [if_neg hrec, hpred]
    norm_num
  · intro db day_start c hrec
    unfold PotentialScorer.calculate_scarcity
    rw [if_pos hrec]

/-- Witness for C2 (amended): the concrete first-of-day fixture scores 80. -/
theorem calculate_scarcity_spec_witness :
    PotentialScorer.calculate_scarcity dbFirstOfDay 0 cFirstOfDay = 80 :=
  calculate_scarcity_spec.1 dbFirstOfDay 0 cFirstOfDay (by decide) (by decide) (by decide)

/-- Claim C10: the topic breakdown ignores the day's content list entirely —
for each fixed topic category with an existing topic Tag it lists the first
up-to-3 content ids linked to that tag anywhere in the store; on a concrete
snapshot it contains a content id published outside the day window. -/
theorem get_topic_breakdown_spec :
    (∀ (db : Store) (contents contents2 : List Content),
        BriefGenerator.get_topic_breakdown db contents =
          BriefGenerator.get_topic_breakdown db contents2) ∧
    (∀ (db : Store) (contents : List Content) (entry : String × List ℕ),
        entry ∈ BriefGenerator.get_topic_breakdown db contents →
        entry.1 ∈ BriefGenerator.TOPIC_CATEGORIES ∧ entry.2.length ≤ 3 ∧
        ∃ tag, db.tags.find? (fun t => t.name == entry.1 && t.category == "topic") = some tag ∧
          entry.2 = ((db.content_tags.filter (fun ct => ct.tag_id == tag.id)).take
            BriefGenerator.TOPICS_PER_CATEGORY).map (fun ct => ct.content_id)) ∧
    (("AI", [7]) ∈ BriefGenerator.get_topic_breakdown dbTopic dayContentsTopic ∧
      (∀ c ∈ dayContentsTopic, c.id ≠ 7) ∧
      ∃ c ∈ dbTopic.contents, c.id = 7 ∧ c.published_at = some 200000 ∧
        ¬((200000 : ℚ) < 86400)) := by
  refine ⟨fun db c1 c2 => rfl, ?_, ?_⟩
  · intro db contents entry hentry
    unfold BriefGenerator.get_topic_breakdown at hentry
    rw [List.mem_filterMap] at hentry
    obtain ⟨topic, htopic, hf⟩ := hentry
    rcases hfind : db.tags.find? (fun t => t.name == topic && t.category == "topic") with
      _ | tag
    · rw [hfind] at hf
      simp at hf
    · rw [hfind] at hf
      simp only [Option.some.injEq] at hf
      refine ⟨?_, ?_, ?_⟩
      · rw [← hf]; exact htopic
      · rw [← hf]
        simp only [List.length_map, List.length_take]
        exact min_le_left _ _
      · refine ⟨tag, ?_, ?_⟩
        · rw [← hf]; exact hfind
        · rw [← hf]
  · refine ⟨by decide, by decide, cTagged, by decide, by decide, by decide, by norm_num⟩

/-- Witness for C10: the AI entry of the concrete snapshot satisfies the
breakdown characterization. -/
theorem get_topic_breakdown_spec_witness :
    (("AI", ([7] : List ℕ)) : String × List ℕ).1 ∈ BriefGenerator.TOPIC_CATEGORIES ∧
    (("AI", ([7] : List ℕ)) : String × List ℕ).2.length ≤ 3 ∧
    ∃ tag, dbTopic.tags.find?
        (fun t => t.name == (("AI", ([7] : List ℕ)) : String × List ℕ).1 &&
          t.category == "topic") = some tag ∧
      (("AI", ([7] : List ℕ)) : String × List ℕ).2 =
        ((dbTopic.content_tags.filter (fun ct => ct.tag_id == tag.id)).take
          BriefGenerator.TOPICS_PER_CATEGORY).map (fun ct => ct.content_id) :=
  get_topic_breakdown_spec.2.1 dbTopic dayContentsTopic ("AI", [7]) (by decide)

/-- Claim C7: author weight is 50 with no author id; on a cache miss it is 55
when the author has no other scored content across any score type and
otherwise the clamped average of those scores; the result is cached under
platform:author_id, a cache hit returns the cached value untouched, and a
second call with the updated cache is stable; the concrete two-prior-scores
fixture averaging 65 yields exactly 65. -/
theorem calculate_author_weight_spec :
    (∀ (db : Store) (cache : List (String × ℚ)) (c : Content),
        c.author_id = none → (PotentialScorer.calculate_author_weight db cache c).1 = 50) ∧
    (∀ (db : Store) (cache : List (String × ℚ)) (c : Content) (aid : String),
        c.author_id = some aid →
        cache.lookup (c.platform ++ ":" ++ aid) = none →
        PotentialScorer.query_author_scores db c = [] →
        (PotentialScorer.calculate_author_weight db cache c).1 = 55) ∧
    (∀ (db : Store) (cache : List (String × ℚ)) (c : Content) (aid : String),
        c.author_id = some aid →
        cache.lookup (c.platform ++ ":" ++ aid) = none →
        PotentialScorer.query_author_scores db c ≠ [] →
        (PotentialScorer.calculate_author_weight db cache c).1 =
          min 100 (max 0 ((PotentialScorer.query_author_scores db c).sum /
            ((PotentialScorer.query_author_scores db c).length : ℚ)))) ∧
    (∀ (db : Store) (cache : List (String × ℚ)) (c : Content) (aid : String) (w : ℚ),
        c.author_id = some aid →
        cache.lookup (c.platform ++ ":" ++ aid) = some w →
        PotentialScorer.calculate_author_weight db cache c = (w, cache)) ∧
    (∀ (db : Store) (cache : List (String × ℚ)) (c : Content) (aid : String),
        c.author_id = some aid →
        ((PotentialScorer.calculate_author_weight db cache c).2).lookup
            (c.platform ++ ":" ++ aid) =
          some (PotentialScorer.calculate_author_weight db cache c).1) ∧
    (∀ (db : Store) (cache : List (String × ℚ)) (c : Content),
        PotentialScorer.calculate_author_weight db
            (PotentialScorer.calculate_author_weight db cache c).2 c =
          ((PotentialScorer.calculate_author_weight db cache c).1,
           (PotentialScorer.calculate_author_weight db cache c).2)) ∧
    PotentialScorer.calculate_author_weight dbAlice [] cAliceNew = (65, [("x:alice", 65)]) := by
  have hnone_pair : ∀ (db : Store) (cache : List (String × ℚ)) (c : Content),
      c.author_id = none →
      PotentialScorer.calculate_author_weight db cache c = (50, cache) := by
    intro db cache c hnone
    unfold PotentialScorer.calculate_author_weight
    rw [hnone]
  have hhit_pair : ∀ (db : Store) (cache : List (String × ℚ)) (c : Content) (aid : String)
      (w : ℚ), c.author_id = some aid →
      cache.lookup (c.platform ++ ":" ++ aid) = some w →
      PotentialScorer.calculate_author_weight db cache c = (w, cache) := by
    intro db cache c aid w haid hhit
    unfold PotentialScorer.calculate_author_weight
    rw [haid]
    simp only [hhit]
  have hmiss_pair : ∀ (db : Store) (cache : List (String × ℚ)) (c : Content) (aid : String),
      c.author_id = some aid →
      cache.lookup (c.platform ++ ":" ++ aid) = none →
      PotentialScorer.calculate_author_weight db cache c =
        (if PotentialScorer.query_author_scores db c = [] then 55
         else min 100 (max 0 ((PotentialScorer.query_author_scores db c).sum /
           ((PotentialScorer.query_author_scores db c).length : ℚ))),
         (c.platform ++ ":" ++ aid,
          if PotentialScorer.query_author_scores db c = [] then 55
          else min 100 (max 0 ((PotentialScorer.query_author_scores db c).sum /
            ((PotentialScorer.query_author_scores db c).length : ℚ)))) :: cache) := by
    intro db cache c aid haid hmiss
    unfold PotentialScorer.calculate_author_weight
    rw [haid]
    simp only [hmiss]
  have hkeyed : ∀ (db : Store) (cache : List (String × ℚ)) (c : Content) (aid : String),
      c.author_id = some aid →
      ((PotentialScorer.calculate_author_weight db cache c).2).lookup
          (c.platform ++ ":" ++ aid) =
        some (PotentialScorer.calculate_author_weight db cache c).1 := by
    intro db cache c aid haid
    rcases hlook : cache.lookup (c.platform ++ ":" ++ aid) with _ | w
    · rw [hmiss_pair db cache c aid haid hlook]
      simp [List.lookup]
    · rw [hhit_pair db cache c aid w haid hlook]
      exact hlook
  refine ⟨?_, ?_, ?_, ?_, hkeyed, ?_, ?_⟩
  · intro db cache c hnone
    rw [hnone_pair db cache c hnone]
  · intro db cache c aid haid hmiss hempty
    rw [hmiss_pair db cache c aid haid hmiss]
    simp [hempty]
  · intro db cache c aid haid hmiss hne
    rw [hmiss_pair db cache c aid haid hmiss]
    simp [hne]
  · intro db cache c aid w haid hhit
    exact hhit_pair db cache c aid w haid hhit
  · intro db cache c
    rcases hauth : c.author_id with _ | aid
    · have e := hnone_pair db cache c hauth
      rw [e]
      exact hnone_pair db cache c hauth
    · exact hhit_pair db (PotentialScorer.calculate_author_weight db cache c).2 c aid
        (PotentialScorer.calculate_author_weight db cache c).1 hauth
        (hkeyed db cache c aid hauth)
  · have hq : PotentialScorer.query_author_scores dbAlice cAliceNew = [60, 70] := by decide
    have hmiss0 : ([] : List (String × ℚ)).lookup
        (cAliceNew.platform ++ ":" ++ "alice") = none := rfl
    rw [hmiss_pair dbAlice [] cAliceNew "alice" rfl hmiss0]
    have hW : (if PotentialScorer.query_author_scores dbAlice cAliceNew = [] then (55 : ℚ)
        else min 100 (max 0 ((PotentialScorer.query_author_scores dbAlice cAliceNew).sum /
          ((PotentialScorer.query_author_scores dbAlice cAliceNew).length : ℚ)))) = 65 := by
      rw [hq, if_neg (by simp)]
      norm_num
    rw [hW]
    decide

/-- Witness for C7: the no-author case returns the neutral 50 on a concrete
content. -/
theorem calculate_author_weight_spec_witness :
    (PotentialScorer.calculate_author_weight dbAlice [] cNoAuthor).1 = 50 :=
  calculate_author_weight_spec.1 dbAlice [] cNoAuthor rfl

/-- Claim C8: calculate never surfaces an exception to its caller — an
internal failure (the oracle) yields a ScoreResult with success false, score
0 and the error string recorded in the factors map, for the heat and the
potential scorers alike, and a failing item contributes nothing to
score_batch, which continues with the remaining items. -/
theorem calculate_never_raises (exn : Content → Option String) (now : ℚ) (c : Content) :
    ((HeatScorer.calculate exn now c).success = false →
      (HeatScorer.calculate exn now c).score = 0 ∧
      ∃ e, (HeatScorer.calculate exn now c).error = some e ∧
        ("error", FVal.str e) ∈ (HeatScorer.calculate exn now c).factors) ∧
    (∀ e, exn c = some e →
      HeatScorer.calculate exn now c =
        { score := 0, factors := [("error", FVal.str e)], success := false,
          error := some e } ∧
      ∀ (db : Store) (day_start : ℚ) (cache : List (String × ℚ)),
        PotentialScorer.calculate exn db now day_start cache c =
          ({ score := 0, factors := [("error", FVal.str e)], success := false,
             error := some e }, cache)) ∧
    (∀ (db : Store) (day_start : ℚ) (cache : List (String × ℚ)),
      (PotentialScorer.calculate exn db now day_start cache c).1.success = false →
      (PotentialScorer.calculate exn db now day_start cache c).1.score = 0 ∧
      ∃ e, ("error", FVal.str e) ∈
        (PotentialScorer.calculate exn db now day_start cache c).1.factors) ∧
    (∀ (calcF : Content → ScoreResult) (stype ver : String) (db : Store)
        (cs : List Content),
      (calcF c).success = false →
      score_batch calcF stype ver (c :: cs) db = score_batch calcF stype ver cs db) := by
  refine ⟨?_, ?_, ?_, ?_⟩
  · rcases hexn : exn c with _ | e
    · intro hfalse
      unfold HeatScorer.calculate at hfalse
      rw [hexn] at hfalse
      simp at hfalse
    · intro _
      unfold HeatScorer.calculate
      rw [hexn]
      exact ⟨rfl, e, rfl, by simp⟩
  · intro e he
    constructor
    · unfold HeatScorer.calculate
      rw [he]
    · intro db day_start cache
      unfold PotentialScorer.calculate
      rw [he]
  · intro db day_start cache
    rcases hexn : exn c with _ | e
    · intro hfalse
      unfold PotentialScorer.calculate at hfalse
      rw [hexn] at hfalse
      simp at hfalse
    · intro _
      unfold PotentialScorer.calculate
      rw [hexn]
      exact ⟨rfl, e, by simp⟩
  · intro calcF stype ver db cs hfail
    have h := score_content_none_of_failure calcF stype ver db c hfail
    show score_batch calcF stype ver (c :: cs) db = score_batch calcF stype ver cs db
    conv_lhs => rw [score_batch]
    rw [h]

/-- Witness for C8: a concrete always-raising oracle produces exactly the
failure ScoreResult. -/
theorem calculate_never_raises_witness :
    HeatScorer.calculate (fun _ => some "boom") 0 cEmpty =
      { score := 0, factors := [("error", FVal.str "boom")], success := false,
        error := some "boom" } :=
  (((calculate_never_raises (fun _ => some "boom") 0 cEmpty).2.1) "boom" rfl).1

/-- Counterexample to C1: a content whose heat Score record is present with
value 0 is dropped from heat_top by the Python truthiness guard
`if heat_score:`, so heat_top does not consist of all contents with a heat
record present. -/
theorem select_heat_top_counterexample :
    (BriefGenerator.lookup_score dbHeat0 1 "heat").isSome = true ∧
    cHeat0 ∈ dbHeat0.contents ∧ cHeat0.id = 1 ∧
    BriefGenerator.select_heat_top dbHeat0 dbHeat0.contents = [] := by
  have hcand : BriefGenerator.heat_candidates dbHeat0 dbHeat0.contents = [] := by decide
  refine ⟨rfl, by decide, rfl, ?_⟩
  unfold BriefGenerator.select_heat_top
  rw [hcand, List.mergeSort_nil]
  rfl

/-- Claim C1 (amended): heat_top consists of the contents having a heat Score
record with nonzero score (a record with score 0 is dropped by the
implementation's truthiness test), sorted descending by heat score with the
original iteration order as tie-break, truncated to the top 10 ids, and the
selection is a pure function of the snapshot (re-running yields the same
list): every selected id comes from such a content, every such content is
selected when at most 10 qualify, the output has at most 10 ids, the selected
pairs are in descending score order, ties keep their original relative order,
and any candidate left out scores no higher than every kept one. -/
theorem select_heat_top_spec (db : Store) (contents : List Content) :
    (∀ i ∈ BriefGenerator.select_heat_top db contents,
        ∃ c ∈ contents, c.id = i ∧
          ∃ h, BriefGenerator.lookup_score db c.id "heat" = some h ∧ h ≠ 0) ∧
    ((BriefGenerator.heat_candidates db contents).length ≤ 10 →
        ∀ c ∈ contents, ∀ h, BriefGenerator.lookup_score db c.id "heat" = some h →
          h ≠ 0 → c.id ∈ BriefGenerator.select_heat_top db contents) ∧
    (BriefGenerator.select_heat_top db contents).length ≤ 10 ∧
    List.Pairwise (fun a b : ℕ × ℚ => b.2 ≤ a.2)
      (((BriefGenerator.heat_candidates db contents).mergeSort
        BriefGenerator.score_desc).take 10) ∧
    (∀ a b : ℕ × ℚ, a.2 = b.2 →
        [a, b].Sublist (BriefGenerator.heat_candidates db contents) →
        [a, b].Sublist ((BriefGenerator.heat_candidates db contents).mergeSort
          BriefGenerator.score_desc)) ∧
    (∀ p ∈ BriefGenerator.heat_candidates db contents,
        p ∉ ((BriefGenerator.heat_candidates db contents).mergeSort
          BriefGenerator.score_desc).take 10 →
        ∀ q ∈ ((BriefGenerator.heat_candidates db contents).mergeSort
          BriefGenerator.score_desc).take 10, p.2 ≤ q.2) ∧
    BriefGenerator.select_heat_top db contents = BriefGenerator.select_heat_top db contents := by
  have hsorted : List.Pairwise (fun a b => BriefGenerator.score_desc a b = true)
      ((BriefGenerator.heat_candidates db contents).mergeSort BriefGenerator.score_desc) :=
    List.sorted_mergeSort score_desc_trans score_desc_total _
  refine ⟨?_, ?_, ?_, ?_, ?_, ?_, rfl⟩
  · intro i hi
    unfold BriefGenerator.select_heat_top at hi
    rw [List.mem_map] at hi
    obtain ⟨p, hp, hfst⟩ := hi
    have hp2 : p ∈ BriefGenerator.heat_candidates db contents :=
      List.mem_mergeSort.mp ((List.take_sublist _ _).subset hp)
    unfold BriefGenerator.heat_candidates at hp2
    rw [List.mem_filterMap] at hp2
    obtain ⟨c, hc, hfc⟩ := hp2
    rcases hl : BriefGenerator.lookup_score db c.id "heat" with _ | h
    · rw [hl] at hfc
      simp at hfc
    · rw [hl] at hfc
      change (if h ≠ 0 then some (c.id, h) else none) = some p at hfc
      by_cases h0 : h = 0
      · rw [h0] at hfc
        simp at hfc
      · rw [if_pos h0] at hfc
        simp only [Option.some.injEq] at hfc
        refine ⟨c, hc, ?_, h, hl, h0⟩
        rw [← hfst, ← hfc]
  · intro hlen c hc h hl h0
    have hfc : (match BriefGenerator.lookup_score db c.id "heat" with
        | some h => if h ≠ 0 then some (c.id, h) else none
        | none => none) = some (c.id, h) := by
      rw [hl]
      exact if_pos h0
    have hmem : (c.id, h) ∈ BriefGenerator.heat_candidates db contents := by
      unfold BriefGenerator.heat_candidates
      rw [List.mem_filterMap]
      exact ⟨c, hc, hfc⟩
    have hms : (c.id, h) ∈ (BriefGenerator.heat_candidates db contents).mergeSort
        BriefGenerator.score_desc := List.mem_mergeSort.mpr hmem
    unfold BriefGenerator.select_heat_top
    rw [List.mem_map]
    refine ⟨(c.id, h), ?_, rfl⟩
    rw [show BriefGenerator.HEAT_TOP_COUNT = 10 from rfl,
      List.take_of_length_le (by rw [List.length_mergeSort]; exact hlen)]
    exact hms
  · unfold BriefGenerator.select_heat_top
    rw [List.length_map, List.length_take]
    exact min_le_left _ _
  · exact pairwise_desc_of_sorted (hsorted.take)
  · intro a b hab hsub
    refine List.sublist_mergeSort score_desc_trans score_desc_total ?_ hsub
    simp [BriefGenerator.score_desc, hab]
  · intro p hp hpn q hq
    have hpm : p ∈ (BriefGenerator.heat_candidates db contents).mergeSort
        BriefGenerator.score_desc := List.mem_mergeSort.mpr hp
    exact sorted_take_le hsorted p hpm hpn q hq

/-- Witness for C1 (amended): on a concrete snapshot with one nonzero heat
score the item is selected. -/
theorem select_heat_top_spec_witness :
    2 ∈ BriefGenerator.select_heat_top dbHeat50 dbHeat50.contents :=
  (select_heat_top_spec dbHeat50 dbHeat50.contents).2.1 (by decide) cHeat50 (by decide)
    50 (by decide) (by norm_num)

/-- Claim C5: every id in potential_top comes from a day content whose
potential score (present, not defaulted) exceeds 70 and whose heat score,
defaulting to 0 when absent, is below 30 — so content with heat ≥ 30, with
potential ≤ 70, or with no potential score never enters — and the list is
sorted descending by potential score and holds at most 5 ids. -/
theorem select_potential_spec (db : Store) (contents : List Content) :
    (∀ i ∈ BriefGenerator.select_potential db contents,
        ∃ c ∈ contents, c.id = i ∧
          70 < (BriefGenerator.lookup_score db c.id "potential").getD 0 ∧
          (BriefGenerator.lookup_score db c.id "heat").getD 0 < 30 ∧
          (BriefGenerator.lookup_score db c.id "potential").isSome = true) ∧
    (BriefGenerator.select_potential db contents).length ≤ 5 ∧
    List.Pairwise (fun a b : ℕ × ℚ => b.2 ≤ a.2)
      (((BriefGenerator.potential_candidates db contents).mergeSort
        BriefGenerator.score_desc).take 5) := by
  have hsorted : List.Pairwise (fun a b => BriefGenerator.score_desc a b = true)
      ((BriefGenerator.potential_candidates db contents).mergeSort
        BriefGenerator.score_desc) :=
    List.sorted_mergeSort score_desc_trans score_desc_total _
  refine ⟨?_, ?_, ?_⟩
  · intro i hi
    unfold BriefGenerator.select_potential at hi
    rw [List.mem_map] at hi
    obtain ⟨p, hp, hfst⟩ := hi
    have hp2 : p ∈ BriefGenerator.potential_candidates db contents :=
      List.mem_mergeSort.mp ((List.take_sublist _ _).subset hp)
    unfold BriefGenerator.potential_candidates at hp2
    rw [List.mem_filterMap] at hp2
    obtain ⟨c, hc, hfc⟩ := hp2
    change (if 70 < (BriefGenerator.lookup_score db c.id "potential").getD 0 ∧
        (BriefGenerator.lookup_score db c.id "heat").getD 0 < 30 then
      some (c.id, (BriefGenerator.lookup_score db c.id "potential").getD 0)
    else none) = some p at hfc
    by_cases hcond : 70 < (BriefGenerator.lookup_score db c.id "potential").getD 0 ∧
        (BriefGenerator.lookup_score db c.id "heat").getD 0 < 30
    · refine ⟨c, hc, ?_, hcond.1, hcond.2, ?_⟩
      · rw [if_pos hcond] at hfc
        simp only [Option.some.injEq] at hfc
        rw [← hfst, ← hfc]
      · rcases hl : BriefGenerator.lookup_score db c.id "potential" with _ | v
        · rw [hl] at hcond
          norm_num at hcond
        · rfl
    · rw [if_neg hcond] at hfc
      simp at hfc
  · unfold BriefGenerator.select_potential
    rw [List.length_map, List.length_take]
    exact min_le_left _ _
  · exact pairwise_desc_of_sorted (hsorted.take)

/-- Witness for C5: a concrete item with potential 80 and heat 10 is
selected and satisfies the selection invariants. -/
theorem select_potential_spec_witness :
    ∃ c ∈ dbPotHigh.contents, c.id = 3 ∧
      70 < (BriefGenerator.lookup_score dbPotHigh c.id "potential").getD 0 ∧
      (BriefGenerator.lookup_score dbPotHigh c.id "heat").getD 0 < 30 ∧
      (BriefGenerator.lookup_score dbPotHigh c.id "potential").isSome = true :=
  (select_potential_spec dbPotHigh dbPotHigh.contents).1 3 (by
    have hcand : BriefGenerator.potential_candidates dbPotHigh dbPotHigh.contents =
        [(3, 80)] := by decide
    unfold BriefGenerator.select_potential
    rw [hcand, List.mergeSort_singleton]
    decide)

/-- Claim C3: for non-negative raw metrics, a successful calculate of the
heat scorer and of the potential scorer yields a score in [0, 100] that is
an exact multiple of one hundredth (rounded to 2 decimals), regardless of
metric magnitude. -/
theorem scores_bounded_C3 :
    (∀ (exn : Content → Option String) (now : ℚ) (c : Content),
        (∀ k v, (k, v) ∈ c.raw_metrics → 0 ≤ v) → exn c = none →
        0 ≤ (HeatScorer.calculate exn now c).score ∧
        (HeatScorer.calculate exn now c).score ≤ 100 ∧
        ∃ n : ℤ, (HeatScorer.calculate exn now c).score = (n : ℚ) / 100) ∧
    (∀ (exn : Content → Option String) (db : Store) (now day_start : ℚ)
        (cache : List (String × ℚ)) (c : Content),
        (∀ k v, (k, v) ∈ c.raw_metrics → 0 ≤ v) → exn c = none →
        0 ≤ (PotentialScorer.calculate exn db now day_start cache c).1.score ∧
        (PotentialScorer.calculate exn db now day_start cache c).1.score ≤ 100 ∧
        ∃ n : ℤ,
          (PotentialScorer.calculate exn db now day_start cache c).1.score = (n : ℚ) / 100) := by
  constructor
  · intro exn now c _ hx
    unfold HeatScorer.calculate
    rw [hx]
    have h0 : (0 : ℝ) ≤ min 100 (max 0 (HeatScorer.heat_raw now c)) :=
      le_min (by norm_num) (le_max_left 0 _)
    have h1 : min 100 (max 0 (HeatScorer.heat_raw now c)) ≤ 100 := min_le_left _ _
    obtain ⟨ha, hb⟩ := round_hundredths_bounds h0 h1
    exact ⟨ha, hb, round (100 * min 100 (max 0 (HeatScorer.heat_raw now c))), rfl⟩
  · intro exn db now day_start cache c _ hx
    unfold PotentialScorer.calculate
    rw [hx]
    have h0 : (0 : ℚ) ≤
        min 100 (max 0 (PotentialScorer.potential_raw db now day_start cache c)) :=
      le_min (by norm_num) (le_max_left 0 _)
    have h1 : min 100 (max 0 (PotentialScorer.potential_raw db now day_start cache c)) ≤ 100 :=
      min_le_left _ _
    obtain ⟨ha, hb⟩ := round_hundredths_bounds h0 h1
    exact ⟨ha, hb,
      round (100 * min 100 (max 0 (PotentialScorer.potential_raw db now day_start cache c))),
      rfl⟩

/-- Witness for C3: concrete bounds on a content with empty metrics for both
scorers. -/
theorem scores_bounded_C3_witness :
    (0 ≤ (HeatScorer.calculate (fun _ => none) 0 cEmpty).score ∧
      (HeatScorer.calculate (fun _ => none) 0 cEmpty).score ≤ 100) ∧
    (0 ≤ (PotentialScorer.calculate (fun _ => none) dbAlice 0 0 [] cEmpty).1.score ∧
      (PotentialScorer.calculate (fun _ => none) dbAlice 0 0 [] cEmpty).1.score ≤ 100) :=
  ⟨⟨(scores_bounded_C3.1 (fun _ => none) 0 cEmpty (by simp [cEmpty]) rfl).1,
    (scores_bounded_C3.1 (fun _ => none) 0 cEmpty (by simp [cEmpty]) rfl).2.1⟩,
   ⟨(scores_bounded_C3.2 (fun _ => none) dbAlice 0 0 [] cEmpty (by simp [cEmpty]) rfl).1,
    (scores_bounded_C3.2 (fun _ => none) dbAlice 0 0 [] cEmpty (by simp [cEmpty]) rfl).2.1⟩⟩

/-- Claim C4: with identical non-negative metrics and platform, a larger
hours-since-publish never increases the heat score; the decay factor equals
max(0.1, 0.5 ^ (hours / 24)), is never below 0.1, and is exactly 1 for
undated content. -/
theorem heat_decay_monotone_C4 :
    (∀ (exn : Content → Option String) (now : ℚ) (c1 c2 : Content) (p1 p2 : ℚ),
        exn c1 = none → exn c2 = none →
        c2.raw_metrics = c1.raw_metrics → c2.platform = c1.platform →
        (∀ k v, (k, v) ∈ c1.raw_metrics → 0 ≤ v) →
        c1.published_at = some p1 → c2.published_at = some p2 →
        HeatScorer.hours_since_publish now p1 ≤ HeatScorer.hours_since_publish now p2 →
        (HeatScorer.calculate exn now c2).score ≤ (HeatScorer.calculate exn now c1).score) ∧
    (∀ now p : ℚ, HeatScorer.calculate_time_decay now (some p) =
        max ((HeatScorer.MIN_DECAY : ℚ) : ℝ)
          ((1 / 2 : ℝ) ^ (((HeatScorer.hours_since_publish now p : ℚ) : ℝ) /
            ((HeatScorer.HALF_LIFE_HOURS : ℚ) : ℝ)))) ∧
    (∀ now p : ℚ, ((1 : ℝ) / 10) ≤ HeatScorer.calculate_time_decay now (some p)) ∧
    (∀ now : ℚ, HeatScorer.calculate_time_decay now none = 1) := by
  refine ⟨?_, fun now p => rfl, ?_, fun now => rfl⟩
  · intro exn now c1 c2 p1 p2 hx1 hx2 hm hp hnn hp1 hp2 hh
    unfold HeatScorer.calculate
    rw [hx1, hx2]
    show round2R (min 100 (max 0 (HeatScorer.heat_raw now c2))) ≤
      round2R (min 100 (max 0 (HeatScorer.heat_raw now c1)))
    apply round2R_mono
    refine min_le_min le_rfl (max_le_max le_rfl ?_)
    unfold HeatScorer.heat_raw
    rw [hm, hp, hp1, hp2]
    refine mul_le_mul_of_nonneg_right ?_ ?_
    · exact mul_le_mul_of_nonneg_left (calculate_time_decay_antitone now p1 p2 hh)
        (calculate_engagement_nonneg c1.raw_metrics hnn)
    · exact_mod_cast le_of_lt (get_platform_factor_pos c1.platform)
  · intro now p
    have h := calculate_time_decay_ge now p
    have he : ((HeatScorer.MIN_DECAY : ℚ) : ℝ) = (1 : ℝ) / 10 := by
      norm_num [HeatScorer.MIN_DECAY]
    rwa [he] at h

/-- Witness for C4: one hour of extra age does not raise the heat score of a
concrete empty-metrics content. -/
theorem heat_decay_monotone_C4_witness :
    HeatScorer.hours_since_publish 0 0 ≤ HeatScorer.hours_since_publish 0 (-3600) ∧
    (HeatScorer.calculate (fun _ => none) 0 cOlder).score ≤
      (HeatScorer.calculate (fun _ => none) 0 cFresh).score :=
  ⟨by norm_num [HeatScorer.hours_since_publish],
   heat_decay_monotone_C4.1 (fun _ => none) 0 cFresh cOlder 0 (-3600) rfl rfl rfl rfl
     (by simp [cFresh]) rfl rfl (by norm_num [HeatScorer.hours_since_publish])⟩

end NexusZero
